import Mathlib

/-!
Verification development for the concurrent bootstrap orchestrator in
`src/otserv.cpp` of the Canary server.

The orchestrator is embedded shallowly: every external call the startup
code makes (config load, database connect, asset loads, listener binds,
...) has its outcome recorded in an `Env` record, and each statement
block of `mainLoader`/`loadModules` becomes a `Step` that emits a list of
observable `Event`s and reports whether it escalated through
`startupErrorMessage`.  Executing the step list in order (`runSteps`)
yields the linearized trace of the dispatcher-thread pipeline; `mainRun`
wraps it with the events of `main` itself (lines 247-285).  Trace order
models temporal order: `main`'s events up to the handshake wait come
first, then the pipeline task's events, then `main`'s post-wait events.
On the escalation path the process terminates with exit status -1
(`startupErrorMessage` never returns; `main`'s concurrent wake-up on that
path also ends in `exit(-1)`, so the status is -1 either way).

The loader handshake of the source (lines 64-66, 134, 268, 428) is a bare
`std::condition_variable` used without a predicate or flag; `CVState`
models its standard semantics (notify releases only the currently blocked
waiters, nothing is recorded for later waits; spurious wakeups are not
modelled).  `OneShotState` is the contrasting flag-based primitive the
specification describes.
-/

namespace Otserv

/-- Background workers owned by the process: `g_dispatcher`, `g_scheduler`
and `g_databaseTasks` in the source. -/
inductive WorkerId
  | dispatcher
  | scheduler
  | databaseTasks
deriving DecidableEq

/-- Network services registered during `mainLoader` (lines 385-388). -/
inductive ServiceId
  | protocolGame
  | protocolLogin
  | protocolStatus
deriving DecidableEq

/-- Game states set during startup: `GAME_STATE_STARTUP`, `GAME_STATE_INIT`,
`GAME_STATE_NORMAL`. -/
inductive GameState
  | startup
  | init
  | normal
deriving DecidableEq

/-- World types settable from the config value (lines 352-357). -/
inductive WorldType
  | pvp
  | noPvp
  | pvpEnforced
deriving DecidableEq

/-- Rent periods (lines 390-403). -/
inductive RentPeriod
  | yearly
  | weekly
  | monthly
  | daily
  | never
deriving DecidableEq

/-- Observable actions of the orchestrator; a trace is a list of these in
program order. -/
inductive Event
  | logInfo (msg : String)
  | logError (msg : String)
  | setGameState (st : GameState)
  | writeConfigLua (contents : String)
  | startWorker (w : WorkerId)
  | submitTask
  | waitSignal
  | notifySignal
  | getchar
  | exitProcess (code : Int)
  | addService (s : ServiceId)
  | setWorldType (t : WorldType)
  | payHouses (r : RentPeriod)
  | updateDatabase
  | loadBoostedCreature
  | checkExpiredOffers
  | updateMarketStatistics
  | gameStart
  | webhookInit
  | webhookSend
  | serveLoop
  | shutdownWorker (w : WorkerId)
  | joinWorker (w : WorkerId)
deriving DecidableEq

/-- Outcomes of every external call the startup code makes, plus the two
configuration strings it branches on and the state of the two config
files.  One `Env` determines one execution of the orchestrator. -/
structure Env where
  fsConfigLua : Option String
  fsConfigLuaDist : Option String
  configLoadOk : Bool
  rsaLoadOk : Bool
  dbConnectOk : Bool
  dbSetupOk : Bool
  optimizeEnabled : Bool
  optimizeOk : Bool
  itemsOtbOk : Bool
  itemsXmlOk : Bool
  scriptSystemsOk : Bool
  globalLuaOk : Bool
  stagesLuaOk : Bool
  startupLuaOk : Bool
  npclibLoadOk : Bool
  scriptsLibOk : Bool
  vocationsOk : Bool
  scheduleEventsOk : Bool
  outfitsOk : Bool
  familiarsOk : Bool
  imbuementsOk : Bool
  modulesXmlOk : Bool
  eventsXmlOk : Bool
  scriptsOk : Bool
  monsterOk : Bool
  npcluaOk : Bool
  worldTypeStr : String
  mapLoadOk : Bool
  customMapEnabled : Bool
  customMapOk : Bool
  gameBindOk : Bool
  loginBindOk : Bool
  statusBindOk : Bool
  rentPeriodStr : String

/-- True exactly for the success-path/escalation-path handshake signal. -/
def isNotify : Event → Bool
  | .notifySignal => true
  | _ => false

/-- True exactly for a service registration. -/
def isAddService : Event → Bool
  | .addService _ => true
  | _ => false

/-- Events only `main` itself performs, never the pipeline task. -/
def mainOnlyEvent : Event → Bool
  | .startWorker .dispatcher => true
  | .startWorker .scheduler => true
  | .submitTask => true
  | .waitSignal => true
  | .serveLoop => true
  | .shutdownWorker _ => true
  | .joinWorker _ => true
  | _ => false

/-- The service a registration event registers, if any; `servicesBound`
filters the trace through this. -/
def svcOf : Event → Option ServiceId
  | .addService s => some s
  | _ => none

/-- Trace of `startupErrorMessage` (lines 132-137): an error log,
`notify_all` on the loader signal, a blocking `getchar()`, then
`exit(-1)`.  It never returns, so a failing run's trace ends exactly
here. -/
def startupErrorMessage : List Event :=
  [.logError ("The program will close after pressing the enter key..."),
   .notifySignal, .getchar, .exitProcess (-1)]

/-- One statement block of `mainLoader`/`loadModules`: `events` are the
observable actions it performs (including any failure log), `check` is
`false` exactly when the block ends in `startupErrorMessage`. -/
structure Step where
  name : String
  events : Env → List Event
  check : Env → Bool

/-- Sequential execution of a statement-block list: each block's events
are appended in order; the first failing check runs
`startupErrorMessage` and stops (the process exits, nothing later
executes).  The boolean is `false` iff some check failed. -/
def runSteps (env : Env) : List Step → List Event × Bool
  | [] => ([], true)
  | s :: rest =>
    if s.check env then
      ((s.events env) ++ (runSteps env rest).1, (runSteps env rest).2)
    else
      ((s.events env) ++ startupErrorMessage, false)

/-- Names of the statement blocks that begin executing, in order. -/
def runExec (env : Env) : List Step → List String
  | [] => []
  | s :: rest =>
    if s.check env then s.name :: runExec env rest else [s.name]

/-- Modelled from the spec: `asLowerCaseString` (a string utility whose
definition is not under `src/`) lowercases the ASCII letters of the
configuration string before comparison. -/
def toLowerAscii (c : Char) : Char :=
  if 65 ≤ c.toNat ∧ c.toNat ≤ 90 then Char.ofNat (c.toNat + 32) else c

/-- ASCII lowercasing of a whole string. -/
def asLowerCaseString (s : String) : String :=
  String.mk (s.data.map toLowerAscii)

/-- World-type parsing from the config value: the if-chain of lines
351-362.  `none` is the `else` branch that escalates. -/
def parseWorldType (s : String) : Option WorldType :=
  let worldType := asLowerCaseString s
  if worldType = "pvp" then some .pvp
  else if worldType = "no-pvp" then some .noPvp
  else if worldType = "pvp-enforced" then some .pvpEnforced
  else none

/-- Rent-period parsing: the if-chain of lines 390-403; any unrecognized
value silently defaults to `RENTPERIOD_NEVER`. -/
def parseRentPeriod (s : String) : RentPeriod :=
  let strRentPeriod := asLowerCaseString s
  if strRentPeriod = "yearly" then .yearly
  else if strRentPeriod = "weekly" then .weekly
  else if strRentPeriod = "monthly" then .monthly
  else if strRentPeriod = "daily" then .daily
  else .never

/-- Lines 323-336 of `mainLoader`: if `./config.lua` cannot be opened and
`./config.lua.dist` can, stream the whole contents of the latter into a
newly created `config.lua`.  Result: new state of `config.lua`, new state
of `config.lua.dist`, events performed. -/
def configCopyRun (configLua configLuaDist : Option String) :
    Option String × Option String × List Event :=
  match configLua with
  | some c => (some c, configLuaDist, [])
  | none =>
    match configLuaDist with
    | some contents =>
      (some contents, some contents,
        [.logInfo ("Copying config.lua.dist to config.lua"),
         .writeConfigLua contents])
    | none => (none, none, [])

/-- Lines 290-321: initial `GAME_STATE_STARTUP`, `srand`, and the
version/compiler/platform banner logs (summarized as one log event). -/
def bannerStep : Step where
  name := "banner"
  events := fun _ => [.setGameState .startup, .logInfo ("version and compiler banners")]
  check := fun _ => true

/-- Lines 323-336 as a pipeline block. -/
def configCopyStep : Step where
  name := "config copy"
  events := fun env => (configCopyRun env.fsConfigLua env.fsConfigLuaDist).2.2
  check := fun _ => true

/-- Line 339: `initGlobalScopes()` allocates the global script objects;
no observable event in this model. -/
def initScopesStep : Step where
  name := "init global scopes"
  events := fun _ => []
  check := fun _ => true

/-- `modulesLoadHelper` (lines 156-162): always logs the load, and on a
failed load logs the error and escalates. -/
def loadHelperStep (moduleName : String) (flag : Env → Bool) : Step where
  name := moduleName
  events := fun env =>
    .logInfo ("Loading " ++ moduleName) ::
      (if flag env then [] else [.logError ("Cannot load: " ++ moduleName)])
  check := flag

/-- Lines 168-169: log the configured client protocol version. -/
def protocolLogStep : Step where
  name := "server protocol"
  events := fun _ => [.logInfo ("Server protocol version")]
  check := fun _ => true

/-- Lines 172-177: `g_RSA.loadPEM` in a try/catch; the catch logs the
exception and escalates. -/
def rsaStep : Step where
  name := "key.pem"
  events := fun env => if env.rsaLoadOk then [] else [.logError ("RSA loadPEM exception")]
  check := Env.rsaLoadOk

/-- Lines 180-185: database connection; failure escalates, success logs
the client version. -/
def dbConnectStep : Step where
  name := "database connect"
  events := fun env =>
    .logInfo ("Establishing database connection... ") ::
      (if env.dbConnectOk then [.logInfo ("MySQL Version")]
       else [.logError ("Failed to connect to database!")])
  check := Env.dbConnectOk

/-- Lines 188-193: `DatabaseManager::isDatabaseSetup` check; an empty
schema escalates. -/
def dbSetupStep : Step where
  name := "database setup"
  events := fun env =>
    .logInfo ("Running database manager...") ::
      (if env.dbSetupOk then []
       else [.logError ("The database specified in config.lua is empty, import the schema")])
  check := Env.dbSetupOk

/-- Lines 195-196: `g_databaseTasks.start()` (the async-task worker is
started here, by the pipeline itself) and `DatabaseManager::updateDatabase`. -/
def dbTasksStartStep : Step where
  name := "database tasks"
  events := fun _ => [.startWorker .databaseTasks, .updateDatabase]
  check := fun _ => true

/-- Lines 198-201: optional table optimization; never fatal, only an
informational log when nothing was optimized. -/
def optimizeStep : Step where
  name := "optimize tables"
  events := fun env =>
    if env.optimizeEnabled && !env.optimizeOk
    then [.logInfo ("No tables were optimized")] else []
  check := fun _ => true

/-- Line 243: `g_game().loadBoostedCreature()`. -/
def boostedStep : Step where
  name := "boosted creature"
  events := fun _ => [.loadBoostedCreature]
  check := fun _ => true

/-- Lines 351-364: world-type selection; an unknown value logs an error
and escalates, a valid one sets the world type and logs it. -/
def worldTypeStep : Step where
  name := "world type"
  events := fun env =>
    match parseWorldType env.worldTypeStr with
    | some t => [.setWorldType t, .logInfo ("World type set")]
    | none => [.logError ("Unknown world type, valid types are pvp, no-pvp and pvp-enforced")]
  check := fun env => (parseWorldType env.worldTypeStr).isSome

/-- Lines 366-370: main map load; failure escalates. -/
def mapStep : Step where
  name := "main map"
  events := fun env =>
    .logInfo ("Loading map...") ::
      (if env.mapLoadOk then [] else [.logError ("Failed to load map")])
  check := Env.mapLoadOk

/-- Lines 373-379: custom map load, only when enabled; failure escalates. -/
def customMapStep : Step where
  name := "custom map"
  events := fun env =>
    if env.customMapEnabled then
      .logInfo ("Loading custom map...") ::
        (if env.customMapOk then [] else [.logError ("Failed to load custom map")])
    else []
  check := fun env => !env.customMapEnabled || env.customMapOk

/-- Lines 381-382: `GAME_STATE_INIT`. -/
def gamestateInitStep : Step where
  name := "gamestate init"
  events := fun _ => [.logInfo ("Initializing gamestate..."), .setGameState .init]
  check := fun _ => true

/-- Modelled from the spec: `ServiceManager::add` (the class is not under
`src/`) attempts to bind a listener on the configured port; on bind
failure it logs and does not register the service; an individual bind
failure is not fatal. -/
def serviceAddStep (svcName : String) (svc : ServiceId) (flag : Env → Bool) : Step where
  name := svcName
  events := fun env =>
    if flag env then [.addService svc] else [.logError ("bind failed: " ++ svcName)]
  check := fun _ => true

/-- Lines 390-405: rent-period selection (never fatal) and `payHouses`. -/
def rentStep : Step where
  name := "rent period"
  events := fun env => [.payHouses (parseRentPeriod env.rentPeriodStr)]
  check := fun _ => true

/-- Lines 407-408: market maintenance. -/
def marketStep : Step where
  name := "market"
  events := fun _ => [.checkExpiredOffers, .updateMarketStatistics]
  check := fun _ => true

/-- Line 410: final startup log. -/
def loadedLogStep : Step where
  name := "loaded log"
  events := fun _ => [.logInfo ("Loaded all modules, server starting up...")]
  check := fun _ => true

/-- Lines 420-421: `g_game().start(services)` and `GAME_STATE_NORMAL`. -/
def gameStartStep : Step where
  name := "game start"
  events := fun _ => [.gameStart, .setGameState .normal]
  check := fun _ => true

/-- Lines 423-426: webhook initialization and online notification. -/
def webhookStep : Step where
  name := "webhook"
  events := fun _ => [.webhookInit, .webhookSend]
  check := fun _ => true

/-- Line 428: `g_loaderSignal.notify_all()` — the single success-path
handshake signal, the last statement of `mainLoader`. -/
def notifyStep : Step where
  name := "notify signal"
  events := fun _ => [.notifySignal]
  check := fun _ => true

/-- `mainLoader` blocks up to and including `GAME_STATE_INIT`; every
mandatory check of the pipeline lives in this segment. -/
def preServiceSteps : List Step :=
  [bannerStep, configCopyStep, initScopesStep,
   loadHelperStep ("config.lua") Env.configLoadOk, protocolLogStep, rsaStep,
   dbConnectStep, dbSetupStep, dbTasksStartStep, optimizeStep,
   loadHelperStep ("items.otb") Env.itemsOtbOk,
   loadHelperStep ("items.xml") Env.itemsXmlOk,
   loadHelperStep ("script systems") Env.scriptSystemsOk,
   loadHelperStep ("data/global.lua") Env.globalLuaOk,
   loadHelperStep ("data/stages.lua") Env.stagesLuaOk,
   loadHelperStep ("data/startup/startup.lua") Env.startupLuaOk,
   loadHelperStep ("data/npclib/load.lua") Env.npclibLoadOk,
   loadHelperStep ("data/scripts/libs") Env.scriptsLibOk,
   loadHelperStep ("data/XML/vocations.xml") Env.vocationsOk,
   loadHelperStep ("data/XML/events.xml") Env.scheduleEventsOk,
   loadHelperStep ("data/XML/outfits.xml") Env.outfitsOk,
   loadHelperStep ("data/XML/familiars.xml") Env.familiarsOk,
   loadHelperStep ("data/XML/imbuements.xml") Env.imbuementsOk,
   loadHelperStep ("data/modules/modules.xml") Env.modulesXmlOk,
   loadHelperStep ("data/events/events.xml") Env.eventsXmlOk,
   loadHelperStep ("data/scripts") Env.scriptsOk,
   loadHelperStep ("data/monster") Env.monsterOk,
   loadHelperStep ("data/npclua") Env.npcluaOk,
   boostedStep, worldTypeStep, mapStep, customMapStep, gamestateInitStep]

/-- Lines 385-388: the three listener registrations. -/
def serviceSteps : List Step :=
  [serviceAddStep ("ProtocolGame") .protocolGame Env.gameBindOk,
   serviceAddStep ("ProtocolLogin") .protocolLogin Env.loginBindOk,
   serviceAddStep ("ProtocolStatus") .protocolStatus Env.statusBindOk]

/-- Blocks after the listener registrations and before the final
handshake signal. -/
def postBodySteps : List Step :=
  [rentStep, marketStep, loadedLogStep, gameStartStep, webhookStep]

/-- Everything of `mainLoader` except the final handshake signal. -/
def bodySteps : List Step :=
  (preServiceSteps ++ serviceSteps) ++ postBodySteps

/-- The complete `mainLoader` pipeline, lines 288-429 in order. -/
def mainLoaderSteps : List Step := bodySteps ++ [notifyStep]

/-- The pipeline task `mainLoader` (plus `loadModules`): its linearized
trace and whether it ran to completion (`false` = it escalated through
`startupErrorMessage` and the process exited). -/
def mainLoaderRun (env : Env) : List Event × Bool := runSteps env mainLoaderSteps

/-- Services registered during the pipeline: the successful `add`s of the
trace.  Modelled from the spec: `ServiceManager::is_running()` is true
iff this list is nonempty. -/
def servicesBound (env : Env) : List ServiceId :=
  (mainLoaderRun env).1.filterMap svcOf

/-- Lines 262-268 of `main`: start the dispatcher and scheduler workers,
submit the `mainLoader` task to the dispatcher, block on the handshake. -/
def bootEvents : List Event :=
  [.startWorker .dispatcher, .startWorker .scheduler, .submitTask, .waitSignal]

/-- Lines 270-273 and 281-284: the serving path, ending in the ordered
joins of the scheduler, async-task and dispatcher workers; `main`
returns 0. -/
def serveTail : List Event :=
  [.logInfo ("server online"), .serveLoop,
   .joinWorker .scheduler, .joinWorker .databaseTasks, .joinWorker .dispatcher]

/-- Lines 274-279: the no-services path: error log, shutdown requests to
the async-task and dispatch workers only, then `exit(-1)`. -/
def noServicesTail : List Event :=
  [.logError ("No services running. The server is NOT online!"),
   .shutdownWorker .databaseTasks, .shutdownWorker .dispatcher, .exitProcess (-1)]

/-- `main` (lines 247-285): the full process trace and the process exit
status.  On the escalation path the pipeline's `exit(-1)` ends the
process (the concurrently woken main thread would also reach `exit(-1)`,
so the status is -1 either way). -/
def mainRun (env : Env) : List Event × Int :=
  if (mainLoaderRun env).2 then
    if servicesBound env ≠ [] then
      (bootEvents ++ ((mainLoaderRun env).1 ++ serveTail), 0)
    else
      (bootEvents ++ ((mainLoaderRun env).1 ++ noServicesTail), -1)
  else
    (bootEvents ++ (mainLoaderRun env).1, -1)

/-- Conjunction of all mandatory checks of the pipeline, in order. -/
def pipelineOk (env : Env) : Bool := mainLoaderSteps.all fun s => s.check env

/-- Closed form of the registered services: all three binds are attempted
iff every mandatory stage passed. -/
def servicesOf (env : Env) : List ServiceId :=
  if pipelineOk env then
    (if env.gameBindOk then [ServiceId.protocolGame] else []) ++
      ((if env.loginBindOk then [ServiceId.protocolLogin] else []) ++
        (if env.statusBindOk then [ServiceId.protocolStatus] else []))
  else []

/-- Closed form of the process exit status. -/
def exitCodeOf (env : Env) : Int :=
  if pipelineOk env then (if servicesOf env = [] then -1 else 0) else -1

/-- Same environment with a different rent-period config value. -/
def setRent (env : Env) (s : String) : Env := { env with rentPeriodStr := s }

/-- Operations the two threads perform on the loader handshake. -/
inductive HsOp
  | waitBegin
  | notify
deriving DecidableEq

/-- State of the source's handshake: a bare `std::condition_variable`
(lines 64-66) used without any predicate or flag.  Modelled from the C++
standard semantics of the primitive: `notify_all` releases exactly the
callers currently blocked in `wait`; nothing is recorded for waits that
begin later.  Spurious wakeups are not modelled. -/
structure CVState where
  waitingCount : Nat
  releasedCount : Nat
deriving DecidableEq

/-- One handshake operation on the condition variable. -/
def cvStep (st : CVState) : HsOp → CVState
  | .waitBegin => { st with waitingCount := st.waitingCount + 1 }
  | .notify => { waitingCount := 0, releasedCount := st.releasedCount + st.waitingCount }

/-- Run a sequence of handshake operations on the condition variable. -/
def cvRun (ops : List HsOp) : CVState :=
  ops.foldl cvStep { waitingCount := 0, releasedCount := 0 }

/-- Modelled from the spec: the one-shot handshake the specification
describes, whose `signaled` flag is authoritative — a wait that begins
after the signal returns immediately instead of blocking, and a second
signal is a no-op. -/
structure OneShotState where
  signaled : Bool
  waitingCount : Nat
  releasedCount : Nat
deriving DecidableEq

/-- One handshake operation on the spec's one-shot primitive. -/
def oneShotStep (st : OneShotState) : HsOp → OneShotState
  | .waitBegin =>
    if st.signaled then { st with releasedCount := st.releasedCount + 1 }
    else { st with waitingCount := st.waitingCount + 1 }
  | .notify =>
    if st.signaled then st
    else { signaled := true, waitingCount := 0,
           releasedCount := st.releasedCount + st.waitingCount }

/-- Run a sequence of handshake operations on the spec's primitive. -/
def oneShotRun (ops : List HsOp) : OneShotState :=
  ops.foldl oneShotStep { signaled := false, waitingCount := 0, releasedCount := 0 }

/-- An execution in which every external call succeeds. -/
def envAllOk : Env where
  fsConfigLua := some ("configuration")
  fsConfigLuaDist := some ("distributed configuration")
  configLoadOk := true
  rsaLoadOk := true
  dbConnectOk := true
  dbSetupOk := true
  optimizeEnabled := false
  optimizeOk := true
  itemsOtbOk := true
  itemsXmlOk := true
  scriptSystemsOk := true
  globalLuaOk := true
  stagesLuaOk := true
  startupLuaOk := true
  npclibLoadOk := true
  scriptsLibOk := true
  vocationsOk := true
  scheduleEventsOk := true
  outfitsOk := true
  familiarsOk := true
  imbuementsOk := true
  modulesXmlOk := true
  eventsXmlOk := true
  scriptsOk := true
  monsterOk := true
  npcluaOk := true
  worldTypeStr := "pvp"
  mapLoadOk := true
  customMapEnabled := false
  customMapOk := true
  gameBindOk := true
  loginBindOk := true
  statusBindOk := true
  rentPeriodStr := "monthly"

/-- All three listener binds fail (ports in use); everything else succeeds. -/
def envNoBind : Env :=
  { envAllOk with gameBindOk := false, loginBindOk := false, statusBindOk := false }

/-- An unrecognized world-type config value. -/
def envBadWorld : Env := { envAllOk with worldTypeStr := "invalid-mode" }

/-- The database connection fails. -/
def envBadDb : Env := { envAllOk with dbConnectOk := false }

/-- The main map fails to load. -/
def envBadMap : Env := { envAllOk with mapLoadOk := false }

/-- The `items.xml` module fails to load. -/
def envBadItems : Env := { envAllOk with itemsXmlOk := false }

/-- The config file fails to load. -/
def envBadConfig : Env := { envAllOk with configLoadOk := false }

/-- An unrecognized rent-period config value. -/
def envFortnight : Env := { envAllOk with rentPeriodStr := "fortnightly" }

/-- A pipeline block that emits neither `main`-thread events, nor the
handshake signal, nor a service registration. -/
def stepQuiet (s : Step) : Prop :=
  ∀ env : Env, ∀ e ∈ s.events env,
    mainOnlyEvent e = false ∧ isNotify e = false ∧ isAddService e = false

/-- A pipeline block that emits neither `main`-thread events nor the
handshake signal (service registrations allowed). -/
def stepTame (s : Step) : Prop :=
  ∀ env : Env, ∀ e ∈ s.events env, mainOnlyEvent e = false ∧ isNotify e = false

theorem svcOf_eq_none {e : Event} (h : isAddService e = false) : svcOf e = none := by
  cases e <;> simp_all [isAddService, svcOf]

theorem runSteps_append (env : Env) (l1 l2 : List Step) :
    runSteps env (l1 ++ l2) =
      if (runSteps env l1).2 then
        ((runSteps env l1).1 ++ (runSteps env l2).1, (runSteps env l2).2)
      else runSteps env l1 := by
  induction l1 with
  | nil => simp [runSteps]
  | cons s rest ih =>
    by_cases h : s.check env
    · simp only [List.cons_append, runSteps, if_pos h]
      by_cases h2 : (runSteps env rest).2
      · simp [h2, ih, List.append_assoc]
      · simp [h2, ih]
    · simp [runSteps, if_neg h]

theorem runSteps_ok (env : Env) (l : List Step) :
    (runSteps env l).2 = l.all fun s => s.check env := by
  induction l with
  | nil => rfl
  | cons s rest ih =>
    by_cases h : s.check env <;> simp [runSteps, h, ih]

theorem runSteps_fail_trace (env : Env) (l : List Step)
    (h : (runSteps env l).2 = false) :
    ∃ p, (runSteps env l).1 = p ++ startupErrorMessage := by
  induction l with
  | nil => simp [runSteps] at h
  | cons s rest ih =>
    by_cases hc : s.check env
    · simp only [runSteps, if_pos hc] at h ⊢
      obtain ⟨p, hp⟩ := ih h
      exact ⟨s.events env ++ p, by rw [hp, List.append_assoc]⟩
    · exact ⟨s.events env, by simp [runSteps, if_neg hc]⟩

theorem runExec_fail (env : Env) (l : List Step)
    (h : (runSteps env l).2 = false) :
    ∃ done failing rest2,
      l.map Step.name = done ++ failing :: rest2 ∧
      runExec env l = done ++ [failing] := by
  induction l with
  | nil => simp [runSteps] at h
  | cons s rest ih =>
    by_cases hc : s.check env
    · simp only [runSteps, if_pos hc] at h
      obtain ⟨d, f, r, h1, h2⟩ := ih h
      exact ⟨s.name :: d, f, r, by simp [h1], by simp [runExec, hc, h2]⟩
    · exact ⟨[], s.name, rest.map Step.name, by simp, by simp [runExec, hc]⟩

theorem runSteps_events_pred (p : Event → Bool) (env : Env) (l : List Step)
    (hstep : ∀ s ∈ l, ∀ e ∈ s.events env, p e = false)
    (hesc : ∀ e ∈ startupErrorMessage, p e = false) :
    ∀ e ∈ (runSteps env l).1, p e = false := by
  induction l with
  | nil => intro e he; simp [runSteps] at he
  | cons s rest ih =>
    intro e he
    by_cases hc : s.check env
    · simp only [runSteps, if_pos hc, List.mem_append] at he
      rcases he with he | he
      · exact hstep s (List.mem_cons_self s rest) e he
      · exact ih (fun s2 hs2 => hstep s2 (List.mem_cons_of_mem s hs2)) e he
    · simp only [runSteps, if_neg hc, List.mem_append] at he
      rcases he with he | he
      · exact hstep s (List.mem_cons_self s rest) e he
      · exact hesc e he

theorem runSteps_countP_notify (env : Env) (l : List Step)
    (hstep : ∀ s ∈ l, ∀ e ∈ s.events env, isNotify e = false) :
    ((runSteps env l).1.countP isNotify) =
      if (runSteps env l).2 then 0 else 1 := by
  induction l with
  | nil => simp [runSteps]
  | cons s rest ih =>
    have hzero : ((s.events env).countP isNotify) = 0 := by
      rw [List.countP_eq_zero]
      intro a ha
      simp [hstep s (List.mem_cons_self s rest) a ha]
    by_cases hc : s.check env
    · simp only [runSteps, if_pos hc, List.countP_append, hzero, Nat.zero_add]
      exact ih fun s2 hs2 => hstep s2 (List.mem_cons_of_mem s hs2)
    · simp only [runSteps, if_neg hc, List.countP_append, hzero, Nat.zero_add,
        if_neg (by simp : ¬ False = True)]
      rfl

theorem runSteps_ok_mem (env : Env) (l : List Step)
    (h : (runSteps env l).2 = true) :
    ∀ s ∈ l, ∀ e ∈ s.events env, e ∈ (runSteps env l).1 := by
  induction l with
  | nil => intro s hs; simp at hs
  | cons s2 rest ih =>
    intro s hs e he
    by_cases hc : s2.check env
    · simp only [runSteps, if_pos hc] at h ⊢
      rw [List.mem_append]
      rcases List.mem_cons.1 hs with rfl | hs2
      · exact Or.inl he
      · exact Or.inr (ih h s hs2 e he)
    · simp [runSteps, if_neg hc] at h

theorem not_mem_of_nodup_middle {α : Type} {d r : List α} {s t : α}
    (h : (d ++ s :: r).Nodup) (ht : t ∈ r) : t ∉ d ++ [s] := by
  intro hmem
  rcases List.mem_append.1 hmem with hd | hs
  · exact (List.nodup_append.1 h).2.2 hd (List.mem_cons_of_mem s ht)
  · have hts : t = s := by simpa using hs
    subst hts
    exact (List.nodup_cons.1 (List.nodup_append.1 h).2.1).1 ht

theorem stepQuiet_tame {s : Step} (h : stepQuiet s) : stepTame s :=
  fun env e he => ⟨(h env e he).1, (h env e he).2.1⟩

theorem bannerStep_quiet : stepQuiet bannerStep := by
  intro env e he
  simp only [bannerStep, List.mem_cons, List.not_mem_nil, or_false] at he
  rcases he with rfl | rfl <;> exact ⟨rfl, rfl, rfl⟩

theorem configCopyStep_quiet : stepQuiet configCopyStep := by
  intro env e he
  cases hcl : env.fsConfigLua <;> cases hcd : env.fsConfigLuaDist <;>
    simp only [configCopyStep, configCopyRun, hcl, hcd, List.mem_cons,
      List.not_mem_nil, or_false] at he
  · rcases he with rfl | rfl <;> exact ⟨rfl, rfl, rfl⟩

theorem initScopesStep_quiet : stepQuiet initScopesStep := by
  intro env e he
  simp [initScopesStep] at he

theorem loadHelperStep_quiet (n : String) (f : Env → Bool) :
    stepQuiet (loadHelperStep n f) := by
  intro env e he
  simp only [loadHelperStep, List.mem_cons] at he
  rcases he with rfl | he
  · exact ⟨rfl, rfl, rfl⟩
  · split at he
    · simp at he
    · simp only [List.mem_cons, List.not_mem_nil, or_false] at he
      subst he
      exact ⟨rfl, rfl, rfl⟩

theorem protocolLogStep_quiet : stepQuiet protocolLogStep := by
  intro env e he
  simp only [protocolLogStep, List.mem_cons, List.not_mem_nil, or_false] at he
  subst he
  exact ⟨rfl, rfl, rfl⟩

theorem rsaStep_quiet : stepQuiet rsaStep := by
  intro env e he
  simp only [rsaStep] at he
  split at he
  · simp at he
  · simp only [List.mem_cons, List.not_mem_nil, or_false] at he
    subst he
    exact ⟨rfl, rfl, rfl⟩

theorem dbConnectStep_quiet : stepQuiet dbConnectStep := by
  intro env e he
  simp only [dbConnectStep, List.mem_cons] at he
  rcases he with rfl | he
  · exact ⟨rfl, rfl, rfl⟩
  · split at he <;>
      simp only [List.mem_cons, List.not_mem_nil, or_false] at he <;>
      subst he <;> exact ⟨rfl, rfl, rfl⟩

theorem dbSetupStep_quiet : stepQuiet dbSetupStep := by
  intro env e he
  simp only [dbSetupStep, List.mem_cons] at he
  rcases he with rfl | he
  · exact ⟨rfl, rfl, rfl⟩
  · split at he
    · simp at he
    · simp only [List.mem_cons, List.not_mem_nil, or_false] at he
      subst he
      exact ⟨rfl, rfl, rfl⟩

theorem dbTasksStartStep_quiet : stepQuiet dbTasksStartStep := by
  intro env e he
  simp only [dbTasksStartStep, List.mem_cons, List.not_mem_nil, or_false] at he
  rcases he with rfl | rfl <;> exact ⟨rfl, rfl, rfl⟩

theorem optimizeStep_quiet : stepQuiet optimizeStep := by
  intro env e he
  simp only [optimizeStep] at he
  split at he
  · simp only [List.mem_cons, List.not_mem_nil, or_false] at he
    subst he
    exact ⟨rfl, rfl, rfl⟩
  · simp at he

theorem boostedStep_quiet : stepQuiet boostedStep := by
  intro env e he
  simp only [boostedStep, List.mem_cons, List.not_mem_nil, or_false] at he
  subst he
  exact ⟨rfl, rfl, rfl⟩

theorem worldTypeStep_quiet : stepQuiet worldTypeStep := by
  intro env e he
  simp only [worldTypeStep] at he
  split at he
  · simp only [List.mem_cons, List.not_mem_nil, or_false] at he
    rcases he with rfl | rfl <;> exact ⟨rfl, rfl, rfl⟩
  · simp only [List.mem_cons, List.not_mem_nil, or_false] at he
    subst he
    exact ⟨rfl, rfl, rfl⟩

theorem mapStep_quiet : stepQuiet mapStep := by
  intro env e he
  simp only [mapStep, List.mem_cons] at he
  rcases he with rfl | he
  · exact ⟨rfl, rfl, rfl⟩
  · split at he
    · simp at he
    · simp only [List.mem_cons, List.not_mem_nil, or_false] at he
      subst he
      exact ⟨rfl, rfl, rfl⟩

theorem customMapStep_quiet : stepQuiet customMapStep := by
  intro env e he
  simp only [customMapStep] at he
  split at he
  · simp only [List.mem_cons] at he
    rcases he with rfl | he
    · exact ⟨rfl, rfl, rfl⟩
    · split at he
      · simp at he
      · simp only [List.mem_cons, List.not_mem_nil, or_false] at he
        subst he
        exact ⟨rfl, rfl, rfl⟩
  · simp at he

theorem gamestateInitStep_quiet : stepQuiet gamestateInitStep := by
  intro env e he
  simp only [gamestateInitStep, List.mem_cons, List.not_mem_nil, or_false] at he
  rcases he with rfl | rfl <;> exact ⟨rfl, rfl, rfl⟩

theorem serviceAddStep_tame (n : String) (svc : ServiceId) (f : Env → Bool) :
    stepTame (serviceAddStep n svc f) := by
  intro env e he
  simp only [serviceAddStep] at he
  split at he <;>
    simp only [List.mem_cons, List.not_mem_nil, or_false] at he <;>
    subst he <;> exact ⟨rfl, rfl⟩

theorem rentStep_quiet : stepQuiet rentStep := by
  intro env e he
  simp only [rentStep, List.mem_cons, List.not_mem_nil, or_false] at he
  subst he
  exact ⟨rfl, rfl, rfl⟩

theorem marketStep_quiet : stepQuiet marketStep := by
  intro env e he
  simp only [marketStep, List.mem_cons, List.not_mem_nil, or_false] at he
  rcases he with rfl | rfl <;> exact ⟨rfl, rfl, rfl⟩

theorem loadedLogStep_quiet : stepQuiet loadedLogStep := by
  intro env e he
  simp only [loadedLogStep, List.mem_cons, List.not_mem_nil, or_false] at he
  subst he
  exact ⟨rfl, rfl, rfl⟩

theorem gameStartStep_quiet : stepQuiet gameStartStep := by
  intro env e he
  simp only [gameStartStep, List.mem_cons, List.not_mem_nil, or_false] at he
  rcases he with rfl | rfl <;> exact ⟨rfl, rfl, rfl⟩

theorem webhookStep_quiet : stepQuiet webhookStep := by
  intro env e he
  simp only [webhookStep, List.mem_cons, List.not_mem_nil, or_false] at he
  rcases he with rfl | rfl <;> exact ⟨rfl, rfl, rfl⟩

theorem notifyStep_no_mainOnly (env : Env) :
    ∀ e ∈ notifyStep.events env, mainOnlyEvent e = false := by
  intro e he
  simp only [notifyStep, List.mem_cons, List.not_mem_nil, or_false] at he
  subst he
  rfl

theorem notifyStep_no_addService (env : Env) :
    ∀ e ∈ notifyStep.events env, isAddService e = false := by
  intro e he
  simp only [notifyStep, List.mem_cons, List.not_mem_nil, or_false] at he
  subst he
  rfl

theorem preServiceSteps_quiet : ∀ s ∈ preServiceSteps, stepQuiet s := by
  simp only [preServiceSteps, List.forall_mem_cons, List.forall_mem_nil, and_true]
  exact ⟨bannerStep_quiet, configCopyStep_quiet, initScopesStep_quiet,
    loadHelperStep_quiet _ _, protocolLogStep_quiet, rsaStep_quiet,
    dbConnectStep_quiet, dbSetupStep_quiet, dbTasksStartStep_quiet,
    optimizeStep_quiet,
    loadHelperStep_quiet _ _, loadHelperStep_quiet _ _, loadHelperStep_quiet _ _,
    loadHelperStep_quiet _ _, loadHelperStep_quiet _ _, loadHelperStep_quiet _ _,
    loadHelperStep_quiet _ _, loadHelperStep_quiet _ _, loadHelperStep_quiet _ _,
    loadHelperStep_quiet _ _, loadHelperStep_quiet _ _, loadHelperStep_quiet _ _,
    loadHelperStep_quiet _ _, loadHelperStep_quiet _ _, loadHelperStep_quiet _ _,
    loadHelperStep_quiet _ _, loadHelperStep_quiet _ _, loadHelperStep_quiet _ _,
    boostedStep_quiet, worldTypeStep_quiet, mapStep_quiet, customMapStep_quiet,
    gamestateInitStep_quiet, List.forall_mem_nil _⟩

theorem serviceSteps_tame : ∀ s ∈ serviceSteps, stepTame s := by
  simp only [serviceSteps, List.forall_mem_cons, List.forall_mem_nil, and_true]
  exact ⟨serviceAddStep_tame _ _ _, serviceAddStep_tame _ _ _, serviceAddStep_tame _ _ _,
    List.forall_mem_nil _⟩

theorem postBodySteps_quiet : ∀ s ∈ postBodySteps, stepQuiet s := by
  simp only [postBodySteps, List.forall_mem_cons, List.forall_mem_nil, and_true]
  exact ⟨rentStep_quiet, marketStep_quiet, loadedLogStep_quiet,
    gameStartStep_quiet, webhookStep_quiet, List.forall_mem_nil _⟩

theorem esc_no_mainOnly : ∀ e ∈ startupErrorMessage, mainOnlyEvent e = false := by
  decide

theorem esc_no_addService : ∀ e ∈ startupErrorMessage, isAddService e = false := by
  decide

theorem mainLoaderSteps_decomp :
    mainLoaderSteps =
      preServiceSteps ++ (serviceSteps ++ (postBodySteps ++ [notifyStep])) := by
  simp [mainLoaderSteps, bodySteps, List.append_assoc]

/-- The pipeline task never performs a `main`-thread event: no serve loop,
no shutdown request, no join, no dispatcher/scheduler start, no task
submission, no handshake wait. -/
theorem pipeline_no_mainOnly (env : Env) :
    ∀ e ∈ (mainLoaderRun env).1, mainOnlyEvent e = false := by
  simp only [mainLoaderRun]
  apply runSteps_events_pred
  · intro s hs
    simp only [mainLoaderSteps, bodySteps, List.mem_append, List.mem_singleton] at hs
    rcases hs with ((hs | hs) | hs) | rfl
    · exact fun e he => ((preServiceSteps_quiet s hs) env e he).1
    · exact fun e he => ((serviceSteps_tame s hs) env e he).1
    · exact fun e he => ((postBodySteps_quiet s hs) env e he).1
    · exact notifyStep_no_mainOnly env
  · exact esc_no_mainOnly

/-- No service registration happens before the three listener blocks. -/
theorem pre_no_addService (env : Env) :
    ∀ e ∈ (runSteps env preServiceSteps).1, isAddService e = false := by
  apply runSteps_events_pred
  · intro s hs
    exact fun e he => ((preServiceSteps_quiet s hs) env e he).2.2
  · exact esc_no_addService

/-- No service registration happens after the three listener blocks. -/
theorem tailSteps_no_addService (env : Env) :
    ∀ e ∈ (runSteps env (postBodySteps ++ [notifyStep])).1, isAddService e = false := by
  apply runSteps_events_pred
  · intro s hs
    rcases List.mem_append.1 hs with hs | hs
    · exact fun e he => ((postBodySteps_quiet s hs) env e he).2.2
    · have hn : s = notifyStep := by simpa using hs
      subst hn
      exact notifyStep_no_addService env
  · exact esc_no_addService

/-- No block before the final one emits the handshake signal. -/
theorem body_no_notify (env : Env) :
    ∀ s ∈ bodySteps, ∀ e ∈ s.events env, isNotify e = false := by
  intro s hs
  simp only [bodySteps, List.mem_append] at hs
  rcases hs with (hs | hs) | hs
  · exact fun e he => ((preServiceSteps_quiet s hs) env e he).2.1
  · exact fun e he => ((serviceSteps_tame s hs) env e he).2
  · exact fun e he => ((postBodySteps_quiet s hs) env e he).2.1

theorem mainLoaderRun_ok (env : Env) : (mainLoaderRun env).2 = pipelineOk env := by
  rw [mainLoaderRun, runSteps_ok]
  rfl

theorem pipelineOk_eq_pre (env : Env) :
    pipelineOk env = (preServiceSteps.all fun s => s.check env) := rfl

theorem svcTrace_filterMap (env : Env) :
    (runSteps env serviceSteps).1.filterMap svcOf =
      ((if env.gameBindOk then [ServiceId.protocolGame] else []) ++
        ((if env.loginBindOk then [ServiceId.protocolLogin] else []) ++
          (if env.statusBindOk then [ServiceId.protocolStatus] else []))) := by
  by_cases h1 : env.gameBindOk <;> by_cases h2 : env.loginBindOk <;>
    by_cases h3 : env.statusBindOk <;>
    simp [runSteps, serviceSteps, serviceAddStep, svcOf, h1, h2, h3]

/-- The registered services are exactly the successful binds, and only
when every mandatory stage passed. -/
theorem servicesBound_eq (env : Env) : servicesBound env = servicesOf env := by
  rw [servicesBound, mainLoaderRun, mainLoaderSteps_decomp,
    runSteps_append env preServiceSteps]
  have hpre : (runSteps env preServiceSteps).1.filterMap svcOf = [] := by
    rw [List.filterMap_eq_nil_iff]
    intro a ha
    exact svcOf_eq_none (pre_no_addService env a ha)
  by_cases h : (runSteps env preServiceSteps).2 = true
  · rw [if_pos h, runSteps_append env serviceSteps]
    have hsvc : (runSteps env serviceSteps).2 = true := by
      rw [runSteps_ok]
      rfl
    rw [if_pos hsvc]
    have htail : (runSteps env (postBodySteps ++ [notifyStep])).1.filterMap svcOf = [] := by
      rw [List.filterMap_eq_nil_iff]
      intro a ha
      exact svcOf_eq_none (tailSteps_no_addService env a ha)
    have hok : pipelineOk env = true := by
      rw [pipelineOk_eq_pre, ← runSteps_ok env preServiceSteps]
      exact h
    simp only [List.filterMap_append, hpre, htail, svcTrace_filterMap,
      List.nil_append, List.append_nil]
    rw [servicesOf, if_pos hok]
  · have hf : (runSteps env preServiceSteps).2 = false := by simpa using h
    rw [if_neg (by simp [hf])]
    have hok : pipelineOk env = false := by
      rw [pipelineOk_eq_pre, ← runSteps_ok env preServiceSteps]
      exact hf
    rw [servicesOf, if_neg (by simp [hok])]
    exact hpre

/-- Closed form of the exit status computed by `mainRun`. -/
theorem mainRun_code (env : Env) : (mainRun env).2 = exitCodeOf env := by
  simp only [mainRun, exitCodeOf, mainLoaderRun_ok, servicesBound_eq]
  split_ifs <;> simp_all

/-- The pipeline fires the handshake signal exactly once: on success as
its final block, on a mandatory failure inside `startupErrorMessage`. -/
theorem pipeline_notify_count (env : Env) :
    ((mainLoaderRun env).1.countP isNotify) = 1 := by
  have hb := runSteps_countP_notify env bodySteps (body_no_notify env)
  rw [mainLoaderRun, mainLoaderSteps, runSteps_append env bodySteps]
  by_cases h : (runSteps env bodySteps).2 = true
  · rw [if_pos h]
    simp only [List.countP_append, hb, if_pos h, Nat.zero_add]
    rfl
  · have hf : (runSteps env bodySteps).2 = false := by simpa using h
    rw [if_neg (by simp [hf]), hb, if_neg (by simp [hf])]

/-- Exactly one handshake signal fires in any complete execution. -/
theorem mainRun_notify_count (env : Env) :
    ((mainRun env).1.countP isNotify) = 1 := by
  rw [mainRun]
  split_ifs <;>
    simp [List.countP_append, pipeline_notify_count, bootEvents, serveTail,
      noServicesTail, isNotify, List.countP_cons]

/-- A failing pipeline's trace ends with `startupErrorMessage`. -/
theorem mainLoaderRun_fail_trace (env : Env) (h : (mainLoaderRun env).2 = false) :
    ∃ p, (mainLoaderRun env).1 = p ++ startupErrorMessage :=
  runSteps_fail_trace env mainLoaderSteps h

/-- `worldTypeStep` belongs to the pipeline. -/
theorem worldTypeStep_mem : worldTypeStep ∈ mainLoaderSteps := by
  simp [mainLoaderSteps, bodySteps, preServiceSteps]

/-- `dbTasksStartStep` belongs to the pipeline. -/
theorem dbTasksStartStep_mem : dbTasksStartStep ∈ mainLoaderSteps := by
  simp [mainLoaderSteps, bodySteps, preServiceSteps]

/-- `rentStep` belongs to the pipeline. -/
theorem rentStep_mem : rentStep ∈ mainLoaderSteps := by
  simp [mainLoaderSteps, bodySteps, postBodySteps]

/-- If the pipeline fails, the failure is in the pre-service segment and
the whole trace is that segment's trace. -/
theorem mainLoaderRun_fail_pre (env : Env) (h : (mainLoaderRun env).2 = false) :
    (runSteps env preServiceSteps).2 = false ∧
    (mainLoaderRun env).1 = (runSteps env preServiceSteps).1 := by
  have hpre : (runSteps env preServiceSteps).2 = false := by
    cases hb : (runSteps env preServiceSteps).2
    · rfl
    · exfalso
      have hok : (mainLoaderRun env).2 = true := by
        rw [mainLoaderRun, mainLoaderSteps_decomp, runSteps_append env preServiceSteps,
          if_pos hb, runSteps_ok]
        rfl
      rw [h] at hok
      exact Bool.false_ne_true hok
  refine ⟨hpre, ?_⟩
  rw [mainLoaderRun, mainLoaderSteps_decomp, runSteps_append env preServiceSteps,
    if_neg (by simp [hpre])]

/-- C1 counterexample: in an execution whose database connection fails
(a mandatory-stage failure), the pipeline trace does contain the
handshake signal — `startupErrorMessage` itself calls
`g_loaderSignal.notify_all()` at line 134 — contradicting the claim that
the signal is never invoked on that path. -/
theorem c1_counterexample :
    (mainLoaderRun envBadDb).2 = false ∧
    Event.notifySignal ∈ (mainLoaderRun envBadDb).1 := by
  exact ⟨by decide, by decide⟩

/-- C1 (amended): on every mandatory-stage failure the escalation path
DOES invoke the handshake signal before terminating: the failing run's
trace ends with `startupErrorMessage`, which contains `notify_all` and
whose final event is `exit(-1)`; escalation never returns control, so
nothing in the pipeline follows it, and the main thread's wait may be
released by the failure path as well as the success path. -/
theorem c1_escalation_signals_then_exits (env : Env)
    (h : (mainLoaderRun env).2 = false) :
    Event.notifySignal ∈ (mainLoaderRun env).1 ∧
    ∃ p, (mainLoaderRun env).1 =
      (p ++ [Event.logError ("The program will close after pressing the enter key..."),
        Event.notifySignal, Event.getchar]) ++ [Event.exitProcess (-1)] := by
  obtain ⟨p, hp⟩ := mainLoaderRun_fail_trace env h
  constructor
  · rw [hp]
    exact List.mem_append_right _ (by decide)
  · exact ⟨p, by rw [hp]; simp [startupErrorMessage]⟩

/-- C1 witness: the amended claim at the concrete execution whose map
load fails. -/
theorem c1_escalation_witness :
    Event.notifySignal ∈ (mainLoaderRun envBadMap).1 ∧
    ∃ p, (mainLoaderRun envBadMap).1 =
      (p ++ [Event.logError ("The program will close after pressing the enter key..."),
        Event.notifySignal, Event.getchar]) ++ [Event.exitProcess (-1)] :=
  c1_escalation_signals_then_exits envBadMap (by decide)

/-- C2 counterexample: all three listener binds fail, so the main thread
wakes with zero services.  The serve loop is never entered and the exit
status is -1, the async-task and dispatch workers receive shutdown
requests — but the scheduler worker never does, refuting "every worker
... receives a shutdown request before process exit". -/
theorem c2_counterexample :
    servicesBound envNoBind = [] ∧
    Event.serveLoop ∉ (mainRun envNoBind).1 ∧
    Event.shutdownWorker .databaseTasks ∈ (mainRun envNoBind).1 ∧
    Event.shutdownWorker .dispatcher ∈ (mainRun envNoBind).1 ∧
    (mainRun envNoBind).2 = -1 ∧
    Event.shutdownWorker .scheduler ∉ (mainRun envNoBind).1 := by
  exact ⟨by decide, by decide, by decide, by decide, by decide, by decide⟩

/-- C2 (amended): if zero services are bound when the main thread wakes
from the handshake, the serve loop is never entered, the async-task and
dispatch workers receive shutdown requests (the scheduler worker does
NOT), and the process exit status is -1. -/
theorem c2_no_services_path (env : Env)
    (hok : (mainLoaderRun env).2 = true) (hz : servicesBound env = []) :
    (mainRun env).2 = -1 ∧
    Event.serveLoop ∉ (mainRun env).1 ∧
    Event.shutdownWorker .databaseTasks ∈ (mainRun env).1 ∧
    Event.shutdownWorker .dispatcher ∈ (mainRun env).1 ∧
    Event.shutdownWorker .scheduler ∉ (mainRun env).1 := by
  have hrun : mainRun env =
      (bootEvents ++ ((mainLoaderRun env).1 ++ noServicesTail), -1) := by
    rw [mainRun, if_pos hok, if_neg (by simp [hz])]
  rw [hrun]
  refine ⟨rfl, ?_, ?_, ?_, ?_⟩
  · intro hmem
    simp only [List.mem_append] at hmem
    rcases hmem with h1 | h2 | h3
    · exact absurd h1 (by decide)
    · have := pipeline_no_mainOnly env _ h2
      simp [mainOnlyEvent] at this
    · exact absurd h3 (by decide)
  · exact List.mem_append_right _ (List.mem_append_right _ (by decide))
  · exact List.mem_append_right _ (List.mem_append_right _ (by decide))
  · intro hmem
    simp only [List.mem_append] at hmem
    rcases hmem with h1 | h2 | h3
    · exact absurd h1 (by decide)
    · have := pipeline_no_mainOnly env _ h2
      simp [mainOnlyEvent] at this
    · exact absurd h3 (by decide)

/-- C2 witness: the amended claim at the concrete execution where all
three binds fail. -/
theorem c2_no_services_witness :
    (mainRun envNoBind).2 = -1 ∧
    Event.serveLoop ∉ (mainRun envNoBind).1 ∧
    Event.shutdownWorker .databaseTasks ∈ (mainRun envNoBind).1 ∧
    Event.shutdownWorker .dispatcher ∈ (mainRun envNoBind).1 ∧
    Event.shutdownWorker .scheduler ∉ (mainRun envNoBind).1 :=
  c2_no_services_path envNoBind (by decide) (by decide)

/-- C3 counterexample: in the all-success run, the only events preceding
the task submission are the dispatcher and scheduler starts; the
async-task (database) worker's `start()` appears only after the
submission (inside the pipeline), refuting "all three are Running at
submission time". -/
theorem c3_counterexample :
    (mainRun envAllOk).1.take 4 =
      [Event.startWorker .dispatcher, Event.startWorker .scheduler,
       Event.submitTask, Event.waitSignal] ∧
    Event.startWorker .databaseTasks ∉ (mainRun envAllOk).1.take 4 ∧
    Event.startWorker .databaseTasks ∈ (mainRun envAllOk).1.drop 4 := by
  exact ⟨by decide, by decide, by decide⟩

/-- C3 (amended): before the pipeline is submitted, `start()` has been
called on the dispatch and scheduler workers only; the async-task
(database) worker is started by the pipeline itself, after submission
(inside `loadModules`, once the database-setup check passed). -/
theorem c3_start_order (env : Env) :
    (mainRun env).1.take 3 =
      [Event.startWorker .dispatcher, Event.startWorker .scheduler,
       Event.submitTask] ∧
    ((mainLoaderRun env).2 = true →
      Event.startWorker .databaseTasks ∈ (mainRun env).1.drop 4) := by
  have hdrop : ∀ Y : List Event, (bootEvents ++ Y).drop 4 = Y := fun Y => rfl
  constructor
  · rw [mainRun]
    split_ifs <;> rfl
  · intro hok
    have hmem : Event.startWorker .databaseTasks ∈ (mainLoaderRun env).1 := by
      apply runSteps_ok_mem env mainLoaderSteps hok dbTasksStartStep dbTasksStartStep_mem
      simp [dbTasksStartStep]
    rw [mainRun]
    split_ifs
    · rw [hdrop]
      exact List.mem_append_left _ hmem
    · rw [hdrop]
      exact List.mem_append_left _ hmem

/-- C3 witness: the amended claim at the all-success execution. -/
theorem c3_start_order_witness :
    (mainRun envAllOk).1.take 3 =
      [Event.startWorker .dispatcher, Event.startWorker .scheduler,
       Event.submitTask] ∧
    Event.startWorker .databaseTasks ∈ (mainRun envAllOk).1.drop 4 :=
  ⟨(c3_start_order envAllOk).1, (c3_start_order envAllOk).2 (by decide)⟩

/-- C4: the process exit status is -1 on any mandatory-stage fatal error
and on the no-services-running outcome, and 0 on a normal,
eventually-initiated shutdown (serve loop entered and later stopped). -/
theorem c4_exit_codes (env : Env) :
    ((mainLoaderRun env).2 = false → (mainRun env).2 = -1) ∧
    ((mainLoaderRun env).2 = true → servicesBound env = [] → (mainRun env).2 = -1) ∧
    ((mainLoaderRun env).2 = true → servicesBound env ≠ [] → (mainRun env).2 = 0) := by
  refine ⟨?_, ?_, ?_⟩
  · intro h
    rw [mainRun, if_neg (by simp [h])]
  · intro h hz
    rw [mainRun, if_pos h, if_neg (by simp [hz])]
  · intro h hnz
    rw [mainRun, if_pos h, if_pos hnz]

/-- C4 witness: exit statuses at three concrete executions — a mandatory
failure, the no-services outcome, and the normal path. -/
theorem c4_exit_codes_witness :
    (mainRun envBadConfig).2 = -1 ∧
    (mainRun envNoBind).2 = -1 ∧
    (mainRun envAllOk).2 = 0 :=
  ⟨(c4_exit_codes envBadConfig).1 (by decide),
   (c4_exit_codes envNoBind).2.1 (by decide) (by decide),
   (c4_exit_codes envAllOk).2.2 (by decide) (by decide)⟩

/-- C5: the world-mode value is compared lowercased with exactly three
valid values — `pvp`, `no-pvp`, `pvp-enforced`, each selecting its world
type; for every other value the parse is `none`, the pipeline escalates
(mandatory fatal path), and no service is ever registered in the trace;
on a successful run the selected world type is set. -/
theorem c5_world_type :
    (∀ s, parseWorldType s = some WorldType.pvp ↔ asLowerCaseString s = "pvp") ∧
    (∀ s, parseWorldType s = some WorldType.noPvp ↔ asLowerCaseString s = "no-pvp") ∧
    (∀ s, parseWorldType s = some WorldType.pvpEnforced ↔
      asLowerCaseString s = "pvp-enforced") ∧
    (∀ env : Env, parseWorldType env.worldTypeStr = none →
      (mainLoaderRun env).2 = false ∧
      ∀ sv, Event.addService sv ∉ (mainLoaderRun env).1) ∧
    (∀ env : Env, ∀ t, parseWorldType env.worldTypeStr = some t →
      (mainLoaderRun env).2 = true → Event.setWorldType t ∈ (mainLoaderRun env).1) := by
  refine ⟨?_, ?_, ?_, ?_, ?_⟩
  · intro s
    simp only [parseWorldType]
    split_ifs with h1 h2 h3 <;> simp_all
  · intro s
    simp only [parseWorldType]
    split_ifs with h1 h2 h3 <;> simp_all
  · intro s
    simp only [parseWorldType]
    split_ifs with h1 h2 h3 <;> simp_all
  · intro env hn
    have hfail : (mainLoaderRun env).2 = false := by
      rw [mainLoaderRun, runSteps_ok]
      rw [Bool.eq_false_iff]
      intro hall
      have hw := List.all_eq_true.1 hall worldTypeStep worldTypeStep_mem
      simp [worldTypeStep, hn] at hw
    refine ⟨hfail, ?_⟩
    intro sv hmem
    rw [(mainLoaderRun_fail_pre env hfail).2] at hmem
    have := pre_no_addService env _ hmem
    simp [isAddService] at this
  · intro env t hp hok
    apply runSteps_ok_mem env mainLoaderSteps hok worldTypeStep worldTypeStep_mem
    simp [worldTypeStep, hp]

/-- C5 witness: case-insensitive acceptance of `PvP`, and the fatal
no-services outcome of the concrete `invalid-mode` execution, and the
world type set in the all-success execution. -/
theorem c5_world_type_witness :
    parseWorldType "PvP" = some WorldType.pvp ∧
    (mainLoaderRun envBadWorld).2 = false ∧
    Event.addService ServiceId.protocolGame ∉ (mainLoaderRun envBadWorld).1 ∧
    Event.setWorldType WorldType.pvp ∈ (mainLoaderRun envAllOk).1 := by
  refine ⟨?_, ?_, ?_, ?_⟩
  · exact (c5_world_type.1 "PvP").mpr (by decide)
  · exact (c5_world_type.2.2.2.1 envBadWorld (by decide)).1
  · exact (c5_world_type.2.2.2.1 envBadWorld (by decide)).2 ServiceId.protocolGame
  · exact c5_world_type.2.2.2.2 envAllOk WorldType.pvp (by decide) (by decide)

/-- C6: the rent-period value maps `yearly`, `weekly`, `monthly`, `daily`
(compared lowercased) to their periods; every other value silently
resolves to `never` with no fatal path — the exit status of the whole
process does not depend on the rent-period string, and a completed
pipeline always performs `payHouses` with the parsed period. -/
theorem c6_rent_period :
    (∀ s, asLowerCaseString s = "yearly" → parseRentPeriod s = RentPeriod.yearly) ∧
    (∀ s, asLowerCaseString s = "weekly" → parseRentPeriod s = RentPeriod.weekly) ∧
    (∀ s, asLowerCaseString s = "monthly" → parseRentPeriod s = RentPeriod.monthly) ∧
    (∀ s, asLowerCaseString s = "daily" → parseRentPeriod s = RentPeriod.daily) ∧
    (∀ s, asLowerCaseString s ∉ (["yearly", "weekly", "monthly", "daily"] : List String) →
      parseRentPeriod s = RentPeriod.never) ∧
    (∀ env : Env, ∀ s2, (mainRun (setRent env s2)).2 = (mainRun env).2) ∧
    (∀ env : Env, (mainLoaderRun env).2 = true →
      Event.payHouses (parseRentPeriod env.rentPeriodStr) ∈ (mainLoaderRun env).1) := by
  refine ⟨?_, ?_, ?_, ?_, ?_, ?_, ?_⟩
  · intro s h
    simp [parseRentPeriod, h]
  · intro s h
    simp [parseRentPeriod, h]
  · intro s h
    simp [parseRentPeriod, h]
  · intro s h
    simp [parseRentPeriod, h]
  · intro s h
    simp only [List.mem_cons, List.not_mem_nil, or_false, not_or] at h
    simp [parseRentPeriod, h.1, h.2.1, h.2.2.1, h.2.2.2]
  · intro env s2
    rw [mainRun_code, mainRun_code]
    cases env
    rfl
  · intro env hok
    apply runSteps_ok_mem env mainLoaderSteps hok rentStep rentStep_mem
    simp [rentStep]

/-- C6 witness: the unrecognized value `fortnightly` resolves to `never`,
leaves the exit status unchanged, and the pipeline still completes and
pays houses with the `never` period. -/
theorem c6_rent_period_witness :
    parseRentPeriod "fortnightly" = RentPeriod.never ∧
    (mainRun envFortnight).2 = (mainRun envAllOk).2 ∧
    Event.payHouses RentPeriod.never ∈ (mainLoaderRun envFortnight).1 := by
  refine ⟨?_, ?_, ?_⟩
  · exact c6_rent_period.2.2.2.2.1 "fortnightly" (by decide)
  · exact c6_rent_period.2.2.2.2.2.1 envAllOk "fortnightly"
  · have h := c6_rent_period.2.2.2.2.2.2 envFortnight (by decide)
    exact (by decide :
      parseRentPeriod envFortnight.rentPeriodStr = RentPeriod.never) ▸ h

/-- C7: on the normal (serving) exit path the process exits with status 0
and the trace ends with the serve loop followed by the joins of the
scheduler worker, the async-task (database) worker and the dispatch
worker, in that order — in particular the scheduler's join completes
before the dispatch worker's join. -/
theorem c7_join_order (env : Env)
    (hok : (mainLoaderRun env).2 = true) (hsv : servicesBound env ≠ []) :
    (mainRun env).2 = 0 ∧
    ∃ p, (mainRun env).1 =
      p ++ [Event.serveLoop, Event.joinWorker .scheduler,
            Event.joinWorker .databaseTasks, Event.joinWorker .dispatcher] := by
  have hrun : mainRun env =
      (bootEvents ++ ((mainLoaderRun env).1 ++ serveTail), 0) := by
    rw [mainRun, if_pos hok, if_pos hsv]
  rw [hrun]
  refine ⟨rfl,
    bootEvents ++ ((mainLoaderRun env).1 ++ [Event.logInfo ("server online")]), ?_⟩
  simp [serveTail, List.append_assoc]

/-- C7 witness: the join order at the all-success execution. -/
theorem c7_join_order_witness :
    (mainRun envAllOk).2 = 0 ∧
    ∃ p, (mainRun envAllOk).1 =
      p ++ [Event.serveLoop, Event.joinWorker .scheduler,
            Event.joinWorker .databaseTasks, Event.joinWorker .dispatcher] :=
  c7_join_order envAllOk (by decide) (by decide)

/-- C8: if any mandatory stage fails, the blocks that began executing are
exactly the ones up to and including the failing block — no later block
of the pipeline executes — and the process exit status is -1. -/
theorem c8_mandatory_failure (env : Env) (h : (mainLoaderRun env).2 = false) :
    (∃ done failing rest2,
      mainLoaderSteps.map Step.name = done ++ failing :: rest2 ∧
      runExec env mainLoaderSteps = done ++ [failing] ∧
      ∀ t ∈ rest2, t ∉ runExec env mainLoaderSteps) ∧
    (mainRun env).2 = -1 := by
  constructor
  · obtain ⟨d, f, r, h1, h2⟩ := runExec_fail env mainLoaderSteps h
    refine ⟨d, f, r, h1, h2, ?_⟩
    intro t ht
    rw [h2]
    have hnod : (mainLoaderSteps.map Step.name).Nodup := by decide
    exact not_mem_of_nodup_middle (h1 ▸ hnod) ht
  · rw [mainRun, if_neg (by simp [h])]

/-- C8 witness: the truncation property at the concrete execution whose
`items.xml` load fails. -/
theorem c8_mandatory_failure_witness :
    (∃ done failing rest2,
      mainLoaderSteps.map Step.name = done ++ failing :: rest2 ∧
      runExec envBadItems mainLoaderSteps = done ++ [failing] ∧
      ∀ t ∈ rest2, t ∉ runExec envBadItems mainLoaderSteps) ∧
    (mainRun envBadItems).2 = -1 :=
  c8_mandatory_failure envBadItems (by decide)

/-- C9 counterexample: the source's handshake is a bare condition
variable, so a wait that begins after the signal is NOT released (the
notification is not recorded), while the spec's flag-based one-shot
primitive releases it immediately — refuting "a wait begun after the
signal returns immediately" for the code's primitive. -/
theorem c9_counterexample :
    cvRun [HsOp.notify, HsOp.waitBegin] =
      { waitingCount := 1, releasedCount := 0 } ∧
    oneShotRun [HsOp.notify, HsOp.waitBegin] =
      { signaled := true, waitingCount := 0, releasedCount := 1 } := by
  exact ⟨by decide, by decide⟩

/-- C9 (amended): exactly one signal fires in every execution; a wait
begun before the signal is released by it, and a further signal would be
a no-op on the released waiter; but a wait begun after the signal blocks
— the condition variable has no authoritative fired flag, so only the
notification, not a recorded state, drives the wake. -/
theorem c9_handshake_semantics :
    (∀ env : Env, ((mainRun env).1.countP isNotify) = 1) ∧
    cvRun [HsOp.waitBegin, HsOp.notify] = { waitingCount := 0, releasedCount := 1 } ∧
    cvRun [HsOp.waitBegin, HsOp.notify, HsOp.notify] =
      { waitingCount := 0, releasedCount := 1 } ∧
    (cvRun [HsOp.notify, HsOp.waitBegin]).releasedCount = 0 := by
  exact ⟨mainRun_notify_count, by decide, by decide, by decide⟩

/-- C10: at pipeline start, an absent `config.lua` is created with the
entire contents of `config.lua.dist` when the latter exists; an existing
`config.lua` is left unchanged and nothing is written; when neither file
exists nothing is written either; and these copy events are the first
thing the pipeline does after the startup banner, before configuration
loading. -/
theorem c10_config_copy :
    (∀ c dist, configCopyRun (some c) dist = (some c, dist, [])) ∧
    (∀ c, configCopyRun none (some c) =
      (some c, some c,
        [Event.logInfo ("Copying config.lua.dist to config.lua"),
         Event.writeConfigLua c])) ∧
    configCopyRun none none = (none, none, []) ∧
    (∀ env : Env, ∃ rest,
      (mainLoaderRun env).1 =
        bannerStep.events env ++
          ((configCopyRun env.fsConfigLua env.fsConfigLuaDist).2.2 ++ rest)) := by
  refine ⟨fun c dist => rfl, fun c => rfl, rfl, ?_⟩
  intro env
  exact ⟨(runSteps env ((preServiceSteps.drop 2 ++ serviceSteps) ++
    (postBodySteps ++ [notifyStep]))).1, rfl⟩

end Otserv
